import Mathlib

/-!
# Verification of the monster-self-drive control-safety core

Shallow embedding of the safety-critical components of the repository:
the `EmergencyStop` latch (`src/safety/emergency_stop.py`), the
`ControlManager` arbitration state machine (`src/safety/control_manager.py`),
the `SafetyMonitor` per-cycle check (`src/safety/safety_monitor.py`), and the
session watchdog cycle of the web server (`src/web/server.py`).

The Python code is concurrent but every critical section is protected by a
lock (or, for the emergency-stop latch, an atomic test-and-set under
`_state_lock`), so each public operation is embedded as a pure function from
state to state.  Callback invocations are recorded in an explicit trace list;
in the Python source each callback is optional and exceptions raised inside a
callback are caught and logged, which does not affect the state transition,
so the trace records the invocations the code performs on the supplied
callbacks.  Wall-clock timestamps are passed in explicitly.
-/

namespace MonsterSafety

/-! ## Python list slicing

`EmergencyStop.get_history` and the history trimming use Python's
`lst[i:]` slice with a possibly negative start index; `pySliceFrom`
embeds that semantics: a negative start counts from the end (clamped to
the start of the list), a non-negative start drops that many elements.
Note `lst[-0:]` is `lst[0:]`, the whole list. -/
def pySliceFrom {α : Type} (l : List α) (i : Int) : List α :=
  if i < 0 then l.drop (l.length - i.natAbs)
  else l.drop i.toNat

/-! ## EmergencyStop (src/safety/emergency_stop.py) -/

/-- `EmergencyStopEvent` dataclass: record of an emergency stop event. -/
structure EmergencyStopEvent where
  timestamp : Nat
  triggered_by : String
  reason : String
deriving DecidableEq, Repr

/-- One invocation of a callback supplied to `EmergencyStop`:
either the motor-stop callback or the state-change callback with its
`(is_stopped, reason)` arguments. -/
inductive CallbackCall where
  | motorStop : CallbackCall
  | stateChange (is_stopped : Bool) (reason : String) : CallbackCall
deriving DecidableEq, Repr

/-- State of an `EmergencyStop` instance: the `_stopped` event flag and the
bounded `_history` list (insertion order, newest last). -/
structure EStop where
  stopped : Bool
  history : List EmergencyStopEvent
deriving DecidableEq, Repr

/-- `EmergencyStop.MAX_HISTORY`. -/
def MAX_HISTORY : Nat := 100

/-- A fresh `EmergencyStop()`: not stopped, empty history. -/
def estopInit : EStop := { stopped := false, history := [] }

/-- `is_stopped` property: lock-free read of the `_stopped` flag. -/
def is_stopped (s : EStop) : Bool := s.stopped

/-- Append an event to `_history` and trim with
`self._history[-self.MAX_HISTORY:]` when the length exceeds
`MAX_HISTORY`, exactly as both `trigger` and `reset` do. -/
def appendTrim (h : List EmergencyStopEvent) (ev : EmergencyStopEvent) :
    List EmergencyStopEvent :=
  let h2 := h ++ [ev]
  if MAX_HISTORY < h2.length then pySliceFrom h2 (-(MAX_HISTORY : Int)) else h2

/-- `EmergencyStop.trigger(triggered_by, reason)`.  Under `_state_lock` the
flag is test-and-set; the motor-stop callback, the history append (the
non-blocking `acquire` on the free `_history_lock` succeeds in this
sequential model) and the state-change callback follow, the two callbacks
only when this call performed the not-stopped-to-stopped transition.
Returns the new state and the trace of callback invocations in order. -/
def trigger (s : EStop) (now : Nat) (triggered_by reason : String) :
    EStop × List CallbackCall :=
  let performed_transition := !s.stopped
  let s1 : EStop := { s with stopped := true }
  let motorCalls := if performed_transition then [CallbackCall.motorStop] else []
  let ev : EmergencyStopEvent :=
    { timestamp := now, triggered_by := triggered_by, reason := reason }
  let s2 : EStop := { s1 with history := appendTrim s1.history ev }
  let stateCalls :=
    if performed_transition then [CallbackCall.stateChange true reason] else []
  (s2, motorCalls ++ stateCalls)

/-- `EmergencyStop.reset(reset_by)`.  Under `_state_lock` the flag is
check-and-cleared; on a performed transition a reset event is appended and
the state-change callback is invoked with `(False, "Reset by <reset_by>")`.
Returns `(state, returned bool, callback trace)`. -/
def reset (s : EStop) (now : Nat) (reset_by : String) :
    EStop × Bool × List CallbackCall :=
  if s.stopped then
    let ev : EmergencyStopEvent :=
      { timestamp := now, triggered_by := reset_by, reason := "Emergency stop reset" }
    let s2 : EStop := { stopped := false, history := appendTrim s.history ev }
    (s2, true, [CallbackCall.stateChange false ("Reset by " ++ reset_by)])
  else (s, false, [])

/-- `EmergencyStop.get_history(limit)`: `self._history[-limit:]`. -/
def get_history (s : EStop) (limit : Nat) : List EmergencyStopEvent :=
  pySliceFrom s.history (-(limit : Int))

/-- `EmergencyStop.wait_for_reset(timeout)` specialised to `timeout = 0`:
the early return when not stopped, else the dedicated `timeout == 0`
non-blocking branch `return not self._stopped.is_set()`.  The polling loop
below those two returns is never reached, so the second component counts the
`time.sleep` calls executed: always zero here. -/
def wait_for_reset_zero (s : EStop) : Bool × Nat :=
  if !s.stopped then (true, 0)
  else (!s.stopped, 0)

/-- A call against the latch: `trigger` or `reset` with its arguments. -/
inductive EStopOp where
  | trig (now : Nat) (triggered_by reason : String) : EStopOp
  | rst (now : Nat) (reset_by : String) : EStopOp
deriving DecidableEq, Repr

/-- One call of `trigger` or `reset`, returning the state and that call's
callback trace. -/
def stepEStop (s : EStop) : EStopOp → EStop × List CallbackCall
  | EStopOp.trig now b r => trigger s now b r
  | EStopOp.rst now b =>
    let res := reset s now b
    (res.1, res.2.2)

/-- A sequence of `trigger`/`reset` calls, concatenating the callback
traces. -/
def runEStop (s : EStop) : List EStopOp → EStop × List CallbackCall
  | [] => (s, [])
  | op :: ops =>
    let r1 := stepEStop s op
    let r2 := runEStop r1.1 ops
    (r2.1, r1.2 ++ r2.2)

/-- Number of motor-stop callback invocations in a trace. -/
def countMotorStops (cs : List CallbackCall) : Nat :=
  cs.count CallbackCall.motorStop

/-- Number of not-stopped-to-stopped transitions a call sequence performs. -/
def countTransitions (s : EStop) : List EStopOp → Nat
  | [] => 0
  | op :: ops =>
    let s1 := (stepEStop s op).1
    (if !s.stopped && s1.stopped then 1 else 0) + countTransitions s1 ops

/-! ## ControlManager (src/safety/control_manager.py)

Python's `dict` preserves insertion order, updates a key's value in place,
and `del` removes the key; `_sessions` is embedded as an insertion-ordered
association list of `UserSession`s with the same behaviour: an existing
session is updated in place, a new one is appended, a deleted one is
filtered out.  All public operations run under the single reentrant
`_lock`, so each is a pure state transformer.  Control-change
notifications (`_notify_change`) are recorded in a trace of
`(user_id, new_role)` pairs; the callback is optional and its exceptions
are swallowed, leaving the registry state unaffected. -/

/-- `UserRole` enum. -/
inductive UserRole where
  | CONTROLLER : UserRole
  | OBSERVER : UserRole
  | DISCONNECTED : UserRole
deriving DecidableEq, Repr

/-- `UserSession` dataclass. -/
structure UserSession where
  user_id : String
  role : UserRole
  connected_at : Nat
  last_activity : Nat
deriving DecidableEq, Repr

/-- `ControlManager` state: `_sessions`, `_active_controller`,
`_takeover_requester`.  (`_takeover_timeout` is stored but never read by
any operation — auto-takeover is unimplemented — so it is omitted.) -/
structure CtrlMgr where
  sessions : List UserSession
  active_controller : Option String
  takeover_requester : Option String
deriving DecidableEq, Repr

/-- A fresh `ControlManager()`. -/
def cmInit : CtrlMgr :=
  { sessions := [], active_controller := none, takeover_requester := none }

/-- `user_id in self._sessions`. -/
def hasSession (sessions : List UserSession) (uid : String) : Bool :=
  sessions.any (fun s => s.user_id == uid)

/-- `self._sessions[user_id]` when present. -/
def findSession (sessions : List UserSession) (uid : String) : Option UserSession :=
  sessions.find? (fun s => s.user_id == uid)

/-- `self._sessions[user_id].role = r`: in-place field update of one key. -/
def setRole (sessions : List UserSession) (uid : String) (r : UserRole) :
    List UserSession :=
  sessions.map (fun s => if s.user_id == uid then { s with role := r } else s)

/-- `self._sessions[user_id].last_activity = now`. -/
def setActivity (sessions : List UserSession) (uid : String) (now : Nat) :
    List UserSession :=
  sessions.map (fun s => if s.user_id == uid then { s with last_activity := now } else s)

/-- `del self._sessions[user_id]`. -/
def delSession (sessions : List UserSession) (uid : String) : List UserSession :=
  sessions.filter (fun s => !(s.user_id == uid))

/-- `get_user_role(user_id)`: the session's role, else `DISCONNECTED`. -/
def get_user_role (m : CtrlMgr) (uid : String) : UserRole :=
  match findSession m.sessions uid with
  | some s => s.role
  | none => UserRole.DISCONNECTED

/-- `observer_count` property. -/
def observer_count (m : CtrlMgr) : Nat :=
  (m.sessions.filter (fun s => s.role == UserRole.OBSERVER)).length

/-- `has_pending_takeover()`. -/
def has_pending_takeover (m : CtrlMgr) : Bool :=
  m.takeover_requester.isSome

/-- Tail of `request_control` after the session upsert: grant control if no
active controller, otherwise assign observer. -/
def grantOrObserve (m : CtrlMgr) (uid : String) :
    CtrlMgr × Bool × List (String × UserRole) :=
  match m.active_controller with
  | none =>
    ({ m with active_controller := some uid,
              sessions := setRole m.sessions uid UserRole.CONTROLLER },
     true, [(uid, UserRole.CONTROLLER)])
  | some _ =>
    ({ m with sessions := setRole m.sessions uid UserRole.OBSERVER },
     false, [(uid, UserRole.OBSERVER)])

/-- `request_control(user_id)`: upserts the session (an existing session
gets `last_activity` refreshed, and an existing controller returns `True`
at once; a new session starts as `DISCONNECTED`), then grants control or
assigns observer.  Returns `(state, returned bool, notification trace)`. -/
def request_control (m : CtrlMgr) (now : Nat) (uid : String) :
    CtrlMgr × Bool × List (String × UserRole) :=
  match findSession m.sessions uid with
  | some sess =>
    let m1 : CtrlMgr := { m with sessions := setActivity m.sessions uid now }
    if sess.role == UserRole.CONTROLLER then (m1, true, [])
    else grantOrObserve m1 uid
  | none =>
    let m1 : CtrlMgr :=
      { m with sessions := m.sessions ++
          [{ user_id := uid, role := UserRole.DISCONNECTED,
             connected_at := now, last_activity := now }] }
    grantOrObserve m1 uid

/-- `request_takeover(user_id)`: rejected when the caller is the active
controller, not a connected session, or a takeover is already pending;
otherwise records the requester. -/
def request_takeover (m : CtrlMgr) (uid : String) : CtrlMgr × Bool :=
  if some uid == m.active_controller then (m, false)
  else if !(hasSession m.sessions uid) then (m, false)
  else if m.takeover_requester.isSome then (m, false)
  else ({ m with takeover_requester := some uid }, true)

/-- `cancel_takeover(user_id)`: only the pending requester or the active
controller may cancel, and only while a request is pending. -/
def cancel_takeover (m : CtrlMgr) (uid : String) : CtrlMgr × Bool :=
  match m.takeover_requester with
  | none => (m, false)
  | some req =>
    if !(uid == req) && !(some uid == m.active_controller) then (m, false)
    else ({ m with takeover_requester := none }, true)

/-- `approve_takeover(approver_id)`: only the active controller approves a
pending request whose requester is still connected; on success the
requester's role is set to `CONTROLLER` and then the old controller's role
to `OBSERVER` (in that order, as in the source), control moves to the
requester and the pending request clears. -/
def approve_takeover (m : CtrlMgr) (approver : String) :
    CtrlMgr × Bool × List (String × UserRole) :=
  if !(some approver == m.active_controller) then (m, false, [])
  else
    match m.takeover_requester with
    | none => (m, false, [])
    | some new_controller =>
      if !(hasSession m.sessions new_controller) then
        ({ m with takeover_requester := none }, false, [])
      else
        let old_controller := approver
        let sessions1 := setRole m.sessions new_controller UserRole.CONTROLLER
        let sessions2 := setRole sessions1 old_controller UserRole.OBSERVER
        ({ sessions := sessions2,
           active_controller := some new_controller,
           takeover_requester := none },
         true,
         [(new_controller, UserRole.CONTROLLER), (old_controller, UserRole.OBSERVER)])

/-- `disconnect(user_id)`: clears a pending request by the departing user,
removes the session (its transient `DISCONNECTED` role assignment is
unobservable after the `del`), notifies the disconnect, and if the departing
user was the active controller promotes the first remaining session with
`OBSERVER` role, in insertion order, to controller. -/
def disconnect (m : CtrlMgr) (uid : String) :
    CtrlMgr × List (String × UserRole) :=
  if !(hasSession m.sessions uid) then (m, [])
  else
    let m1 : CtrlMgr :=
      if m.takeover_requester == some uid then { m with takeover_requester := none } else m
    let was_controller := m1.active_controller == some uid
    let m2 : CtrlMgr := { m1 with sessions := delSession m1.sessions uid }
    let calls := [(uid, UserRole.DISCONNECTED)]
    if was_controller then
      match m2.sessions.find? (fun s => s.role == UserRole.OBSERVER) with
      | some sess =>
        ({ m2 with active_controller := some sess.user_id,
                   sessions := setRole m2.sessions sess.user_id UserRole.CONTROLLER },
         calls ++ [(sess.user_id, UserRole.CONTROLLER)])
      | none => ({ m2 with active_controller := none }, calls)
    else (m2, calls)

/-- `update_activity(user_id)`. -/
def update_activity (m : CtrlMgr) (now : Nat) (uid : String) : CtrlMgr :=
  if hasSession m.sessions uid then { m with sessions := setActivity m.sessions uid now }
  else m

/-- A call of one public mutating operation of `ControlManager`. -/
inductive CMOp where
  | reqControl (uid : String) : CMOp
  | reqTakeover (uid : String) : CMOp
  | approveTk (uid : String) : CMOp
  | cancelTk (uid : String) : CMOp
  | disc (uid : String) : CMOp
  | updActivity (uid : String) : CMOp
deriving DecidableEq, Repr

/-- One public operation applied to the state (return values and
notifications dropped). -/
def stepCM (m : CtrlMgr) (now : Nat) : CMOp → CtrlMgr
  | CMOp.reqControl uid => (request_control m now uid).1
  | CMOp.reqTakeover uid => (request_takeover m uid).1
  | CMOp.approveTk uid => (approve_takeover m uid).1
  | CMOp.cancelTk uid => (cancel_takeover m uid).1
  | CMOp.disc uid => (disconnect m uid).1
  | CMOp.updActivity uid => update_activity m now uid

/-- Run a sequence of public operations from a state, the timestamp
advancing by one per call. -/
def runCM (m : CtrlMgr) (now : Nat) : List CMOp → CtrlMgr
  | [] => m
  | op :: ops => runCM (stepCM m now op) (now + 1) ops

/-! ## SafetyMonitor (src/safety/safety_monitor.py)

`_check_safety` is one poll cycle.  Voltages and times are embedded as
rationals.  The two probes are external collaborators that may raise; the
`try/except` recovery (voltage `0.0`, fault `False`) is embedded by feeding
the cycle the probe outcome as an `Option` and taking the recovery default
on `none`.  A missing probe likewise leaves the default, so `none` covers
both.  The issue strings the code accumulates are embedded as `SafetyIssue`
tags (the Python renders `Battery critical: <v>V` via float formatting and
joins the issues with a semicolon before handing them to the callback; the
claims only concern which issues arise and whether the callback fires). -/

/-- `OperationMode` enum. -/
inductive OperationMode where
  | MANUAL : OperationMode
  | AUTONOMOUS : OperationMode
  | STOPPED : OperationMode
deriving DecidableEq, Repr

/-- One entry of the `issues` list built by `_check_safety`. -/
inductive SafetyIssue where
  | batteryCritical (voltage : Rat) : SafetyIssue
  | motorFault : SafetyIssue
  | signalLost : SafetyIssue
deriving DecidableEq, Repr

/-- The fields of `SafetyStatus` that `_check_safety` writes each cycle
(`mode` is written only by `set_mode`, not by the cycle). -/
structure CycleStatus where
  battery_voltage : Rat
  battery_ok : Bool
  fault_detected : Bool
  fault_message : String
  signal_ok : Bool
  last_check : Rat
deriving DecidableEq, Repr

/-- Constructor thresholds and the fixed signal timeout. -/
structure MonitorConfig where
  battery_stop_voltage : Rat
  battery_warning_voltage : Rat
  signal_timeout : Rat
deriving DecidableEq, Repr

/-- The defaults: stop 10.5 V, warning 11.0 V, signal timeout 1.0 s. -/
def defaultMonitorConfig : MonitorConfig :=
  { battery_stop_voltage := 21/2, battery_warning_voltage := 11, signal_timeout := 1 }

/-- Everything one `_check_safety` cycle reads: the mode, the clock, the
last signal timestamp, and the probe outcomes (`none` = probe absent or
probe raised). -/
structure CheckInput where
  mode : OperationMode
  now : Rat
  last_signal_time : Rat
  battery_probe : Option Rat
  fault_probe : Option Bool
deriving DecidableEq, Repr

/-- One `_check_safety` cycle: computes `signal_ok`, reads the probes with
their recovery defaults, applies the mode-dependent policy, writes the
status snapshot, and invokes the issue callback exactly when issues were
found and the mode is not `STOPPED`.  Returns the status written and the
callback invocation: `some (source, issues)` — the code passes
`("SafetyMonitor", "; ".join(issues))` — or `none`. -/
def check_safety (cfg : MonitorConfig) (inp : CheckInput) :
    CycleStatus × Option (String × List SafetyIssue) :=
  let signal_ok : Bool := inp.now - inp.last_signal_time < cfg.signal_timeout
  let battery_voltage : Rat := inp.battery_probe.getD 0
  let fault_detected : Bool := inp.fault_probe.getD false
  let fault_message : String :=
    if fault_detected then "Motor driver fault detected" else ""
  let lowBattery : Bool :=
    0 < battery_voltage && battery_voltage < cfg.battery_stop_voltage
  let issues : List SafetyIssue :=
    match inp.mode with
    | OperationMode.AUTONOMOUS =>
      (if lowBattery then [SafetyIssue.batteryCritical battery_voltage] else [])
        ++ (if fault_detected then [SafetyIssue.motorFault] else [])
        ++ (if !signal_ok then [SafetyIssue.signalLost] else [])
    | OperationMode.MANUAL =>
      -- the low-battery warning branch in manual mode is an explicit no-op
      if !signal_ok then [SafetyIssue.signalLost] else []
    | OperationMode.STOPPED => []
  let battery_ok : Bool := !(inp.mode == OperationMode.AUTONOMOUS && lowBattery)
  let status : CycleStatus :=
    { battery_voltage := battery_voltage, battery_ok := battery_ok,
      fault_detected := fault_detected, fault_message := fault_message,
      signal_ok := signal_ok, last_check := inp.now }
  let callback :=
    if !issues.isEmpty && !(inp.mode == OperationMode.STOPPED) then
      some ("SafetyMonitor", issues)
    else none
  (status, callback)

/-! ## Session watchdog (src/web/server.py)

One iteration of `WebServer._watchdog_loop`, over the state it touches:
the `_last_command_time` dict (insertion-ordered association list of
`(sid, last_command_time)`), the current motor outputs, and the power
limit used by `_set_motors`.  The loop does not read the emergency-stop
latch or the control manager. -/

/-- The web-server state the watchdog loop reads and writes. -/
structure WatchdogState where
  last_command_time : List (String × Rat)
  current_left : Rat
  current_right : Rat
  max_power : Rat
deriving DecidableEq, Repr

/-- `max(-1.0, min(1.0, x))`. -/
def clampUnit (x : Rat) : Rat := max (-1) (min 1 x)

/-- `WebServer._set_motors(left, right)`: clamp to `[-1, 1]`, scale by
`_max_power`, store as the current outputs (the motor callback is then
invoked with these values). -/
def set_motors (s : WatchdogState) (l r : Rat) : WatchdogState :=
  let l1 := clampUnit l * s.max_power
  let r1 := clampUnit r * s.max_power
  { s with current_left := l1, current_right := r1 }

/-- `now - last_time > self._watchdog_timeout`. -/
def timedOut (wtimeout now : Rat) (p : String × Rat) : Bool :=
  wtimeout < now - p.2

/-- One iteration of `_watchdog_loop`: collect the timed-out sids; if any
exist and either motor output is non-zero, force-stop the motors with one
`_set_motors(0.0, 0.0)` call; then delete every timed-out entry from
`_last_command_time`.  The second component reports whether the force-stop
call was made this cycle. -/
def watchdog_cycle (s : WatchdogState) (now wtimeout : Rat) :
    WatchdogState × Bool :=
  let timed_out := s.last_command_time.filter (timedOut wtimeout now)
  let stopNow : Bool :=
    !timed_out.isEmpty && (!(s.current_left == 0) || !(s.current_right == 0))
  let s1 := if stopNow then set_motors s 0 0 else s
  let s2 : WatchdogState :=
    { s1 with last_command_time :=
        s1.last_command_time.filter (fun p => !(timedOut wtimeout now p)) }
  (s2, stopNow)

/-! ## Theorems: EmergencyStop -/

/-- Counting motor-stop invocations distributes over trace concatenation. -/
lemma countMotorStops_append (a b : List CallbackCall) :
    countMotorStops (a ++ b) = countMotorStops a + countMotorStops b := by
  simp [countMotorStops, List.count_append]

/-- One `stepEStop` call contributes one motor-stop invocation exactly when
it performs the not-stopped-to-stopped transition. -/
lemma countMotorStops_step (s : EStop) (op : EStopOp) :
    countMotorStops (stepEStop s op).2 =
      if !s.stopped && (stepEStop s op).1.stopped then 1 else 0 := by
  cases op with
  | trig now b r =>
    by_cases h : s.stopped <;>
      simp [stepEStop, trigger, countMotorStops, h, List.count_cons]
  | rst now b =>
    by_cases h : s.stopped <;>
      simp [stepEStop, reset, countMotorStops, h, List.count_cons]

/-- Over a whole run, motor-stop invocations equal performed transitions. -/
lemma countMotorStops_run (s : EStop) (ops : List EStopOp) :
    countMotorStops (runEStop s ops).2 = countTransitions s ops := by
  induction ops generalizing s with
  | nil => simp [runEStop, countMotorStops, countTransitions]
  | cons op ops ih =>
    simp only [runEStop, countTransitions]
    rw [countMotorStops_append, countMotorStops_step, ih]

/-- C1: a `trigger` call while not stopped invokes the motor-stop callback
and then the state-change callback with `(true, reason)` exactly once each,
while a call made when already stopped invokes neither; after any `trigger`
call `is_stopped()` is true; and over any sequence of `trigger`/`reset`
calls the motor-stop callback fires exactly once per
not-stopped-to-stopped transition. -/
theorem trigger_exactly_once_per_transition (s : EStop) (now : Nat)
    (b r : String) (ops : List EStopOp) :
    (trigger s now b r).2 =
      (if s.stopped then []
       else [CallbackCall.motorStop, CallbackCall.stateChange true r])
    ∧ is_stopped (trigger s now b r).1 = true
    ∧ countMotorStops (runEStop s ops).2 = countTransitions s ops := by
  refine ⟨?_, ?_, countMotorStops_run s ops⟩
  · by_cases h : s.stopped <;> simp [trigger, h]
  · simp [trigger, is_stopped]

/-- C4: `reset` returns true iff the latch was stopped at the call; a false
return leaves the state entirely unchanged with no event and no callback;
a true return clears the latch, appends the reset event to the history and
invokes the state-change callback exactly once with
`(false, "Reset by <actor>")`. -/
theorem reset_test_and_clear (s : EStop) (now : Nat) (b : String) :
    ((reset s now b).2.1 = is_stopped s)
    ∧ (is_stopped s = false → reset s now b = (s, false, []))
    ∧ (is_stopped s = true →
        is_stopped (reset s now b).1 = false
        ∧ (reset s now b).1.history = appendTrim s.history
            { timestamp := now, triggered_by := b, reason := "Emergency stop reset" }
        ∧ (reset s now b).2.2 =
            [CallbackCall.stateChange false ("Reset by " ++ b)]) := by
  by_cases h : s.stopped <;> simp [reset, is_stopped, h]

/-- Witness for C4 at concrete stopped and not-stopped states. -/
theorem reset_test_and_clear_witness :
    (is_stopped { stopped := true, history := [] } = true
      ∧ is_stopped (reset { stopped := true, history := [] } 5 "admin").1 = false)
    ∧ (is_stopped { stopped := false, history := [] } = false
      ∧ reset { stopped := false, history := [] } 5 "admin" =
          ({ stopped := false, history := [] }, false, [])) :=
  ⟨⟨by decide,
    ((reset_test_and_clear { stopped := true, history := [] } 5 "admin").2.2
      (by decide)).1⟩,
   ⟨by decide,
    (reset_test_and_clear { stopped := false, history := [] } 5 "admin").2.1
      (by decide)⟩⟩

/-- The latch state reached by trigger, reset, trigger — used to settle C8
on a state the code itself produces. -/
def estopThree : EStop :=
  (runEStop estopInit
    [EStopOp.trig 1 "user1" "First stop",
     EStopOp.rst 2 "admin",
     EStopOp.trig 3 "user2" "Second stop"]).1

/-- What C8 claims `get_history` returns: the most recent
`min(limit, len)` events ordered most-recent-first (newest first). -/
def get_history_claimed (s : EStop) (limit : Nat) : List EmergencyStopEvent :=
  (s.history.drop (s.history.length - limit)).reverse

/-- C8 counterexample: on a history of three events, `get_history 2`
returns the two most recent events oldest-first, not most-recent-first as
claimed. -/
theorem get_history_not_most_recent_first :
    get_history estopThree 2 ≠ get_history_claimed estopThree 2 := by decide

/-- C8 (amended): for `limit > 0`, `get_history(limit)` returns the most
recent `min(limit, len)` stop events in chronological order (oldest first,
newest last) — i.e. a suffix of the history of that length. -/
theorem get_history_recent_suffix (s : EStop) (limit : Nat) (h : 0 < limit) :
    (get_history s limit).length = min limit s.history.length
    ∧ List.IsSuffix (get_history s limit) s.history := by
  have hneg : (-(limit : Int)) < 0 := by omega
  have hdrop : get_history s limit = s.history.drop (s.history.length - limit) := by
    simp [get_history, pySliceFrom, hneg]
  rw [hdrop]
  refine ⟨?_, List.drop_suffix _ _⟩
  rw [List.length_drop]
  omega

/-- Witness for C8's amended theorem at the trigger-reset-trigger state. -/
theorem get_history_recent_suffix_witness :
    0 < 2
    ∧ ((get_history estopThree 2).length = min 2 estopThree.history.length
      ∧ List.IsSuffix (get_history estopThree 2) estopThree.history) :=
  ⟨by decide, get_history_recent_suffix estopThree 2 (by decide)⟩

/-- C9 counterexample: on the stopped latch produced by a `trigger` call,
`wait_for_reset(0)` returns false while `is_stopped()` is true — the result
is not equal to `is_stopped()`. -/
theorem wait_for_reset_zero_not_is_stopped :
    ¬((wait_for_reset_zero (trigger estopInit 0 "user1" "Manual stop").1).1
      = is_stopped (trigger estopInit 0 "user1" "Manual stop").1) := by
  decide

/-- C9 (amended): `wait_for_reset` with `timeout = 0` is an immediate
non-blocking check — it executes zero polling sleeps — and its result is
the negation of `is_stopped()` at call time (true iff not stopped). -/
theorem wait_for_reset_zero_nonblocking (s : EStop) :
    (wait_for_reset_zero s).1 = !(is_stopped s)
    ∧ (wait_for_reset_zero s).2 = 0 := by
  by_cases h : s.stopped <;> simp [wait_for_reset_zero, is_stopped, h]

/-- C10: `get_history(0)` returns the entire recorded history — Python's
`history[-0:]` slice is the whole list — not the empty sequence. -/
theorem get_history_zero_returns_all (s : EStop) :
    get_history s 0 = s.history := by
  simp [get_history, pySliceFrom]

/-! ## Theorems: ControlManager

The operation sequence
`request_control alice; request_control bob; request_takeover bob;
disconnect alice` drives the registry into a state the spec's invariants
forbid: `disconnect` promotes the first remaining observer without checking
the pending-takeover request, so after it the pending requester *is* the
active controller (against C3); approving that pending request then makes
the controller transfer control to itself, setting its role to `CONTROLLER`
and immediately back to `OBSERVER`, so `active_controller` names a session
whose role is `OBSERVER` (against C2). -/

/-- C3 failing run: the controller disconnects while an observer's takeover
request is pending and that observer is promoted. -/
theorem promotion_keeps_pending_takeover :
    (runCM cmInit 0 [CMOp.reqControl "alice", CMOp.reqControl "bob",
        CMOp.reqTakeover "bob", CMOp.disc "alice"]).takeover_requester
      = some "bob"
    ∧ get_user_role (runCM cmInit 0 [CMOp.reqControl "alice",
        CMOp.reqControl "bob", CMOp.reqTakeover "bob", CMOp.disc "alice"]) "bob"
      = UserRole.CONTROLLER := by decide

/-- C2 failing run: one more step — the self-approval of the stale pending
request — leaves `active_controller = some "bob"` while bob's session role
is `OBSERVER`. -/
theorem self_approval_breaks_controller_iff :
    (runCM cmInit 0 [CMOp.reqControl "alice", CMOp.reqControl "bob",
        CMOp.reqTakeover "bob", CMOp.disc "alice",
        CMOp.approveTk "bob"]).active_controller = some "bob"
    ∧ get_user_role (runCM cmInit 0 [CMOp.reqControl "alice",
        CMOp.reqControl "bob", CMOp.reqTakeover "bob", CMOp.disc "alice",
        CMOp.approveTk "bob"]) "bob" = UserRole.OBSERVER := by decide

/-- `setRole` only rewrites the `role` field of entries with the given id;
looking the id up afterwards finds an entry carrying the new role, provided
the id is present at all. -/
lemma findSession_setRole_role (l : List UserSession) (x : String) (r : UserRole)
    (h : hasSession l x = true) :
    ∃ s, findSession (setRole l x r) x = some s ∧ s.role = r := by
  induction l with
  | nil => simp [hasSession] at h
  | cons a l ih =>
    by_cases ha : (a.user_id == x) = true
    · refine ⟨{ a with role := r }, ?_, rfl⟩
      have haeq : a.user_id = x := by simpa using ha
      have hcons : setRole (a :: l) x r = { a with role := r } :: setRole l x r := by
        simp [setRole, haeq]
      unfold findSession
      rw [hcons]
      exact List.find?_cons_of_pos _ (by simpa using ha)
    · have h' : hasSession l x = true := by
        simpa [hasSession, ha] using h
      obtain ⟨s, hs, hr⟩ := ih h'
      refine ⟨s, ?_, hr⟩
      have haeq : ¬(a.user_id = x) := by simpa using ha
      have hcons : setRole (a :: l) x r = a :: setRole l x r := by
        simp [setRole, haeq]
      unfold findSession
      rw [hcons]
      rw [List.find?_cons_of_neg _ (by simpa using ha)]
      exact hs

/-- C5: when the active controller (with a live session) disconnects, in a
state where no other session carries the `CONTROLLER` role, the first
remaining session with `OBSERVER` role in insertion order is promoted: it
becomes the active controller, its role becomes `CONTROLLER`, and a
control-change notification for it is fired; if no observer remains, no
actor holds `CONTROLLER` afterwards and `active_controller` is unset. -/
theorem disconnect_promotes_first_observer (m : CtrlMgr) (uid : String)
    (h1 : m.active_controller = some uid)
    (h2 : hasSession m.sessions uid = true)
    (h3 : ∀ s ∈ m.sessions, s.role = UserRole.CONTROLLER → s.user_id = uid) :
    (∀ sess, (delSession m.sessions uid).find?
        (fun s => s.role == UserRole.OBSERVER) = some sess →
      (disconnect m uid).1.active_controller = some sess.user_id
      ∧ get_user_role (disconnect m uid).1 sess.user_id = UserRole.CONTROLLER
      ∧ (sess.user_id, UserRole.CONTROLLER) ∈ (disconnect m uid).2)
    ∧ ((delSession m.sessions uid).find?
        (fun s => s.role == UserRole.OBSERVER) = none →
      (disconnect m uid).1.active_controller = none
      ∧ ∀ s ∈ (disconnect m uid).1.sessions, s.role ≠ UserRole.CONTROLLER) := by
  have hdis : ∀ sess, (delSession m.sessions uid).find?
      (fun s => s.role == UserRole.OBSERVER) = some sess →
      disconnect m uid =
        ({ sessions := setRole (delSession m.sessions uid) sess.user_id
             UserRole.CONTROLLER,
           active_controller := some sess.user_id,
           takeover_requester :=
             if m.takeover_requester == some uid then none
             else m.takeover_requester },
         [(uid, UserRole.DISCONNECTED), (sess.user_id, UserRole.CONTROLLER)]) := by
    intro sess hfind
    by_cases htr : m.takeover_requester == some uid <;>
      simp [disconnect, h2, htr, h1, hfind]
  have hdisn : (delSession m.sessions uid).find?
      (fun s => s.role == UserRole.OBSERVER) = none →
      disconnect m uid =
        ({ sessions := delSession m.sessions uid,
           active_controller := none,
           takeover_requester :=
             if m.takeover_requester == some uid then none
             else m.takeover_requester },
         [(uid, UserRole.DISCONNECTED)]) := by
    intro hfind
    by_cases htr : m.takeover_requester == some uid <;>
      simp [disconnect, h2, htr, h1, hfind]
  constructor
  · intro sess hfind
    rw [hdis sess hfind]
    have hmem : sess ∈ delSession m.sessions uid :=
      List.mem_of_find?_eq_some hfind
    have hhas : hasSession (delSession m.sessions uid) sess.user_id = true := by
      simp only [hasSession, List.any_eq_true]
      exact ⟨sess, hmem, by simp⟩
    obtain ⟨s, hs, hr⟩ :=
      findSession_setRole_role (delSession m.sessions uid) sess.user_id
        UserRole.CONTROLLER hhas
    refine ⟨rfl, ?_, by simp⟩
    simp [get_user_role, hs, hr]
  · intro hfind
    rw [hdisn hfind]
    refine ⟨rfl, ?_⟩
    intro s hsmem hrole
    have hmem : s ∈ m.sessions ∧ (!(s.user_id == uid)) = true := by
      simpa [delSession] using List.mem_filter.mp hsmem
    have := h3 s hmem.1 hrole
    simp [this] at hmem

/-- Witness for C5: on the run `alice, bob, carol request control; alice
disconnects`, bob (the earliest observer) is promoted; and on the run with
alice alone, her disconnect leaves no controller. -/
theorem disconnect_promotes_first_observer_witness :
    ((disconnect (runCM cmInit 0 [CMOp.reqControl "alice", CMOp.reqControl "bob",
        CMOp.reqControl "carol"]) "alice").1.active_controller = some "bob"
      ∧ get_user_role (disconnect (runCM cmInit 0 [CMOp.reqControl "alice",
          CMOp.reqControl "bob", CMOp.reqControl "carol"]) "alice").1 "bob"
        = UserRole.CONTROLLER)
    ∧ ((disconnect (runCM cmInit 0 [CMOp.reqControl "alice"])
          "alice").1.active_controller = none
      ∧ ∀ s ∈ (disconnect (runCM cmInit 0 [CMOp.reqControl "alice"])
          "alice").1.sessions, s.role ≠ UserRole.CONTROLLER) := by
  constructor
  · have h := (disconnect_promotes_first_observer
      (runCM cmInit 0 [CMOp.reqControl "alice", CMOp.reqControl "bob",
        CMOp.reqControl "carol"]) "alice" (by decide) (by decide)
      (by decide)).1
      { user_id := "bob", role := UserRole.OBSERVER,
        connected_at := 1, last_activity := 1 } (by decide)
    exact ⟨h.1, h.2.1⟩
  · exact (disconnect_promotes_first_observer
      (runCM cmInit 0 [CMOp.reqControl "alice"]) "alice" (by decide)
      (by decide) (by decide)).2 (by decide)

/-! ## Theorems: SafetyMonitor -/

/-- C6: per poll cycle — in `MANUAL` mode with a fresh signal the issue
callback is never invoked, whatever the battery and fault probes returned
(so low battery alone never causes an issue); in `AUTONOMOUS` mode a valid
battery reading below the stop threshold, a detected fault, or a stale
signal each cause the callback to be invoked; in `STOPPED` mode the
callback is never invoked regardless of all readings. -/
theorem check_safety_mode_policy (cfg : MonitorConfig) (inp : CheckInput) :
    (inp.mode = OperationMode.MANUAL →
      inp.now - inp.last_signal_time < cfg.signal_timeout →
      (check_safety cfg inp).2 = none)
    ∧ (inp.mode = OperationMode.AUTONOMOUS →
      ((0 < inp.battery_probe.getD 0
          ∧ inp.battery_probe.getD 0 < cfg.battery_stop_voltage)
        ∨ inp.fault_probe.getD false = true
        ∨ ¬(inp.now - inp.last_signal_time < cfg.signal_timeout)) →
      ((check_safety cfg inp).2).isSome = true)
    ∧ (inp.mode = OperationMode.STOPPED → (check_safety cfg inp).2 = none) := by
  refine ⟨?_, ?_, ?_⟩
  · intro hm hsig
    simp [check_safety, hm, hsig]
  · intro hm hcase
    rcases hcase with hbat | hfault | hsig
    · simp [check_safety, hm, hbat.1, hbat.2]
    · simp [check_safety, hm, hfault]
    · simp [check_safety, hm, hsig]
  · intro hm
    simp [check_safety, hm]

/-- Witness for C6 at the spec's example readings: probe 9.8 V against the
default 10.5 V stop threshold raises an issue in autonomous mode, the same
readings raise none in manual mode with a fresh signal, and a stale signal
with a fault raises none in stopped mode. -/
theorem check_safety_mode_policy_witness :
    ((check_safety defaultMonitorConfig
        { mode := OperationMode.AUTONOMOUS, now := 10, last_signal_time := 10,
          battery_probe := some (49/5), fault_probe := some false }).2).isSome = true
    ∧ (check_safety defaultMonitorConfig
        { mode := OperationMode.MANUAL, now := 10, last_signal_time := 10,
          battery_probe := some (49/5), fault_probe := some true }).2 = none
    ∧ (check_safety defaultMonitorConfig
        { mode := OperationMode.STOPPED, now := 10, last_signal_time := 0,
          battery_probe := some (49/5), fault_probe := some true }).2 = none :=
  ⟨(check_safety_mode_policy defaultMonitorConfig
      { mode := OperationMode.AUTONOMOUS, now := 10, last_signal_time := 10,
        battery_probe := some (49/5), fault_probe := some false }).2.1 rfl
      (Or.inl (by constructor <;> norm_num [defaultMonitorConfig])),
   (check_safety_mode_policy defaultMonitorConfig
      { mode := OperationMode.MANUAL, now := 10, last_signal_time := 10,
        battery_probe := some (49/5), fault_probe := some true }).1 rfl
      (by norm_num [defaultMonitorConfig]),
   (check_safety_mode_policy defaultMonitorConfig
      { mode := OperationMode.STOPPED, now := 10, last_signal_time := 0,
        battery_probe := some (49/5), fault_probe := some true }).2.2 rfl⟩

/-! ## Theorems: Session watchdog -/

/-- C7: in one watchdog cycle, the motors are force-stopped (both outputs
set to zero by one `_set_motors(0, 0)` call) exactly when some tracked
actor's last command time is more than the timeout in the past and the
current motor output is non-zero; when no stop happens the outputs are
untouched; after the cycle no tracked entry is timed out — every timed-out
entry was removed — and every non-timed-out entry survives.  The cycle
reads neither the control-manager roles nor the emergency-stop latch:
`WatchdogState` does not contain them. -/
theorem watchdog_cycle_spec (s : WatchdogState) (now wtimeout : Rat) :
    ((watchdog_cycle s now wtimeout).2 = true ↔
      ((∃ p ∈ s.last_command_time, wtimeout < now - p.2)
        ∧ (s.current_left ≠ 0 ∨ s.current_right ≠ 0)))
    ∧ ((watchdog_cycle s now wtimeout).2 = true →
        (watchdog_cycle s now wtimeout).1.current_left = 0
        ∧ (watchdog_cycle s now wtimeout).1.current_right = 0)
    ∧ ((watchdog_cycle s now wtimeout).2 = false →
        (watchdog_cycle s now wtimeout).1.current_left = s.current_left
        ∧ (watchdog_cycle s now wtimeout).1.current_right = s.current_right)
    ∧ (∀ p ∈ (watchdog_cycle s now wtimeout).1.last_command_time,
        now - p.2 ≤ wtimeout)
    ∧ (∀ p ∈ s.last_command_time, now - p.2 ≤ wtimeout →
        p ∈ (watchdog_cycle s now wtimeout).1.last_command_time) := by
  have hclamp : clampUnit 0 * s.max_power = 0 := by
    unfold clampUnit
    norm_num
  have hlct : (watchdog_cycle s now wtimeout).1.last_command_time
      = s.last_command_time.filter (fun p => !(timedOut wtimeout now p)) := by
    simp only [watchdog_cycle]
    by_cases h : (!(s.last_command_time.filter (timedOut wtimeout now)).isEmpty
        && (!(s.current_left == 0) || !(s.current_right == 0))) = true <;>
      simp [h, set_motors]
  refine ⟨?_, ?_, ?_, ?_, ?_⟩
  · simp only [watchdog_cycle, Bool.and_eq_true, Bool.not_eq_true',
      Bool.or_eq_true, List.isEmpty_eq_false, ne_eq, List.filter_eq_nil_iff,
      beq_eq_false_iff_ne, timedOut, decide_eq_true_eq]
    push_neg
    tauto
  · intro h
    simp only [watchdog_cycle] at h ⊢
    simp only [h, if_true]
    simp [set_motors, hclamp]
  · intro h
    simp only [watchdog_cycle] at h ⊢
    simp only [h, Bool.false_eq_true, if_false]
    exact ⟨trivial, trivial⟩
  · intro p hp
    rw [hlct] at hp
    have := List.mem_filter.mp hp
    have hto : timedOut wtimeout now p = false := by
      simpa using this.2
    have : ¬(wtimeout < now - p.2) := by
      simpa [timedOut] using hto
    exact le_of_not_lt this
  · intro p hp hle
    rw [hlct]
    refine List.mem_filter.mpr ⟨hp, ?_⟩
    simp [timedOut, not_lt_of_le hle]

/-- Witness for C7: with entries `s1` (stale) and `s2` (fresh) at `now = 2`,
timeout `1`, and a non-zero left output, the cycle stops the motors, evicts
`s1` and keeps `s2`; at `now = 1` nothing is timed out and the outputs are
untouched. -/
theorem watchdog_cycle_spec_witness :
    ((watchdog_cycle
        { last_command_time := [("s1", 0), ("s2", 5)], current_left := 1/2,
          current_right := 0, max_power := 4/5 } 2 1).1.current_left = 0
      ∧ (watchdog_cycle
        { last_command_time := [("s1", 0), ("s2", 5)], current_left := 1/2,
          current_right := 0, max_power := 4/5 } 2 1).1.current_right = 0)
    ∧ ("s2", (5 : Rat)) ∈ (watchdog_cycle
        { last_command_time := [("s1", 0), ("s2", 5)], current_left := 1/2,
          current_right := 0, max_power := 4/5 } 2 1).1.last_command_time
    ∧ (∀ p ∈ (watchdog_cycle
        { last_command_time := [("s1", 0), ("s2", 5)], current_left := 1/2,
          current_right := 0, max_power := 4/5 } 2 1).1.last_command_time,
        (2 : Rat) - p.2 ≤ 1)
    ∧ ((watchdog_cycle
        { last_command_time := [("s1", 0), ("s2", 5)], current_left := 1/2,
          current_right := 0, max_power := 4/5 } 1 1).1.current_left = 1/2
      ∧ (watchdog_cycle
        { last_command_time := [("s1", 0), ("s2", 5)], current_left := 1/2,
          current_right := 0, max_power := 4/5 } 1 1).1.current_right = 0) := by
  have hA := watchdog_cycle_spec
    { last_command_time := [("s1", 0), ("s2", 5)], current_left := 1/2,
      current_right := 0, max_power := 4/5 } 2 1
  have hB := watchdog_cycle_spec
    { last_command_time := [("s1", 0), ("s2", 5)], current_left := 1/2,
      current_right := 0, max_power := 4/5 } 1 1
  have hstop := hA.1.mpr ⟨⟨("s1", 0), by simp, by norm_num⟩, Or.inl (by norm_num)⟩
  have hnostop : (watchdog_cycle
      { last_command_time := [("s1", 0), ("s2", 5)], current_left := 1/2,
        current_right := 0, max_power := 4/5 } 1 1).2 = false := by
    rw [Bool.eq_false_iff]
    intro htrue
    rcases hB.1.mp htrue with ⟨⟨p, hp, hlt⟩, -⟩
    simp only [List.mem_cons, List.not_mem_nil, or_false] at hp
    rcases hp with h | h <;> rw [h] at hlt <;> norm_num at hlt
  exact ⟨hA.2.1 hstop,
    hA.2.2.2.2 ("s2", 5) (by simp) (by norm_num),
    hA.2.2.2.1,
    hB.2.2.1 hnostop⟩

end MonsterSafety
